import Mathlib

/-!
Formal model of the wadviewer WAD parser and geometry converter
(`src/wad.cpp`, `src/wad.hpp`, `src/wad-converter.cpp`, `src/wad-converter.hpp`).

Machine integers are modelled as `Nat` (unsigned fields) and `Int` (signed
fields); `float` values are modelled as `Rat` (`SCALE = 1` and all inputs in
the verified statements are small integers, where IEEE single arithmetic is
exact).  The single call to `sqrt` in `createWallSection` is modelled by an
arbitrary function parameter `sq : Rat -> Rat`; none of the verified
statements depend on its value and the theorems quantify over it.
Byte buffers are `List Nat`; out-of-range list writes are no-ops of
`List.set`, and where the C++ code can write or read out of bounds the model
carries an explicit instrumentation flag recording that the unchecked access
happened.
-/

namespace WadViewer

/-- Byte access into a lump buffer (C++ `data[i]` on a `std::vector<uint8_t>`). -/
def byteAt (d : List Nat) (i : Nat) : Nat := d.getD i 0

/-- Little-endian unsigned 16-bit value at offset `i`. -/
def u16 (d : List Nat) (i : Nat) : Nat := byteAt d i + 256 * byteAt d (i + 1)

/-- Little-endian signed 16-bit value at offset `i` (two's complement). -/
def i16 (d : List Nat) (i : Nat) : Int :=
  let v := u16 d i
  if v < 32768 then (v : Int) else (v : Int) - 65536

/-- Little-endian unsigned 32-bit value at offset `i`. -/
def u32 (d : List Nat) (i : Nat) : Nat :=
  byteAt d i + 256 * byteAt d (i + 1) + 65536 * byteAt d (i + 2)
    + 16777216 * byteAt d (i + 3)

/-- An 8-byte fixed name field read as characters (C++ `char name[8]`). -/
def str8 (d : List Nat) (i : Nat) : String :=
  String.mk ((List.range 8).map (fun k => Char.ofNat (byteAt d (i + k))))

/-- Drop trailing characters satisfying `p` (used for space/NUL trimming). -/
def dropTrailing (p : Char → Bool) (l : List Char) : List Char :=
  (l.reverse.dropWhile p).reverse

/-- The contents of a C++ `char[8]` field: the string's first 8 characters,
NUL-padded to exactly 8. -/
def field8 (s : String) : List Char :=
  (s.toList ++ List.replicate 8 '\x00').take 8

/-- `std::string(name, strnlen(name, 8))`: characters of the 8-byte field up
to the first NUL. -/
def strnlen8 (s : String) : String :=
  String.mk ((field8 s).takeWhile (fun c => c ≠ '\x00'))

/-- `std::string(name, 8)` followed by popping trailing spaces, as done in
`WAD::processWAD` when scanning the directory for level markers. -/
def dirEntryName (s : String) : String :=
  String.mk (dropTrailing (fun c => c = ' ') (field8 s))

/-- Modelled from the spec: `OkStrings::trimFixedString(field, 8)` of the
external okinawa.cpp library, whose source is not part of this repository.
The spec (§9) describes it as trim-trailing-space/NUL normalization of a
bounded 8-byte name field. -/
def trimFixedString (s : String) : String :=
  String.mk (dropTrailing (fun c => c = ' ' ∨ c = '\x00') ((s.toList).take 8))

/-- Printable-ASCII test used by `WAD::isLevelMarker` when cleaning a name. -/
def printableAscii (c : Char) : Bool := 32 ≤ c.toNat ∧ c.toNat ≤ 126

/-- `std::isdigit` on an ASCII character. -/
def isDigitChar (c : Char) : Bool := 48 ≤ c.toNat ∧ c.toNat ≤ 57

/-- The name cleaning performed by `WAD::isLevelMarker`: keep printable ASCII
characters up to the first NUL, then strip trailing spaces. -/
def cleanMarkerName (s : String) : List Char :=
  dropTrailing (fun c => c = ' ')
    ((s.toList.takeWhile (fun c => c ≠ '\x00')).filter printableAscii)

/-- `WAD::isLevelMarker`: ExMy (DOOM 1) or MAPxx (DOOM 2) after cleaning. -/
def isLevelMarker (s : String) : Bool :=
  let c := cleanMarkerName s
  (c.length = 4 ∧ c.getD 0 ' ' = 'E' ∧ c.getD 2 ' ' = 'M' ∧
    isDigitChar (c.getD 1 ' ') ∧ isDigitChar (c.getD 3 ' '))
  ∨ (c.length = 5 ∧ c.take 3 = ['M', 'A', 'P'] ∧
    isDigitChar (c.getD 3 ' ') ∧ isDigitChar (c.getD 4 ' '))

/-- The five level-scoped geometry lump names special-cased by
`WAD::findLump`. -/
def isLevelDataName (name : String) : Bool :=
  name = "VERTEXES" ∨ name = "LINEDEFS" ∨ name = "SIDEDEFS" ∨
    name = "SECTORS" ∨ name = "THINGS"

/-- C++ `struct WAD::Directory` (16-byte directory record). -/
structure Directory where
  filepos : Nat
  size : Nat
  name : String
  deriving Repr, DecidableEq, Inhabited

/-- The scan loop of `WAD::findLump`, carried out over `dir.drop i` with `i`
the current absolute index.  Returns the index of the matching entry. -/
def findLumpFrom (name : String) (startIndex : Nat) :
    Nat → List Directory → Option Nat
  | _, [] => none
  | i, e :: rest =>
    let lumpName := strnlen8 e.name
    if isLevelDataName name ∧ i > startIndex ∧ isLevelMarker lumpName then
      none
    else if lumpName = name then
      some i
    else
      findLumpFrom name startIndex (i + 1) rest

/-- `WAD::findLump`, returning the directory index of the lump found. -/
def findLumpIdx (dir : List Directory) (name : String) (startIndex : Nat) :
    Option Nat :=
  findLumpFrom name startIndex startIndex (dir.drop startIndex)

/-- `WAD::findLump`, returning the `(offset, size)` out-parameters. -/
def findLump (dir : List Directory) (name : String) (startIndex : Nat) :
    Option (Nat × Nat) :=
  (findLumpIdx dir name startIndex).map
    (fun j => ((dir.getD j default).filepos, (dir.getD j default).size))

/-- `WAD::readLump`: a `size`-byte zero-initialized buffer filled from the
file bytes at `offset` (a short read leaves the trailing bytes zero). -/
def readLump (file : List Nat) (offset size : Nat) : List Nat :=
  let part := (file.drop offset).take size
  part ++ List.replicate (size - part.length) 0

/-- C++ `struct WAD::Vertex`. -/
structure Vertex where
  x : Int
  y : Int
  deriving Repr, DecidableEq, Inhabited

/-- C++ `struct WAD::Linedef` (all fields `uint16_t`). -/
structure Linedef where
  start_vertex : Nat
  end_vertex : Nat
  flags : Nat
  line_type : Nat
  sector_tag : Nat
  right_sidedef : Nat
  left_sidedef : Nat
  deriving Repr, DecidableEq, Inhabited

/-- C++ `struct WAD::Sidedef`. -/
structure Sidedef where
  x_offset : Int
  y_offset : Int
  upper_texture : String
  lower_texture : String
  middle_texture : String
  sector : Nat
  deriving Repr, DecidableEq, Inhabited

/-- C++ `struct WAD::Sector`. -/
structure Sector where
  floor_height : Int
  ceiling_height : Int
  floor_texture : String
  ceiling_texture : String
  light_level : Nat
  type : Nat
  tag : Nat
  deriving Repr, DecidableEq, Inhabited

/-- C++ `struct WAD::Thing`. -/
structure Thing where
  x : Int
  y : Int
  angle : Nat
  type : Nat
  flags : Nat
  deriving Repr, DecidableEq, Inhabited

/-- C++ `struct WAD::Color` (palette entry). -/
structure Color where
  r : Nat
  g : Nat
  b : Nat
  deriving Repr, DecidableEq, Inhabited

/-- C++ `struct WAD::PatchData`; `width`/`height` are `uint16_t`, `pixels`
is the decoded RGBA raster. -/
structure PatchData where
  name : String
  width : Nat
  height : Nat
  pixels : List Nat
  deriving Repr, DecidableEq, Inhabited

/-- C++ `struct WAD::PatchInTexture`. -/
structure PatchInTexture where
  origin_x : Int
  origin_y : Int
  patch_num : Nat
  stepdir : Nat
  colormap : Nat
  deriving Repr, DecidableEq, Inhabited

/-- C++ `struct WAD::TextureDef` (`width`/`height` are `uint16_t`). -/
structure TextureDef where
  name : String
  masked : Nat
  width : Nat
  height : Nat
  column_dir : Nat
  patch_count : Nat
  patches : List PatchInTexture
  deriving Repr, DecidableEq, Inhabited

/-- C++ `struct WAD::FlatData`. -/
structure FlatData where
  name : String
  data : List Nat
  deriving Repr, DecidableEq, Inhabited

/-- C++ `struct WAD::Level` (the texture/patch/palette fields shared across
levels are omitted except where a claim needs them). -/
structure Level where
  name : String
  player_start : Thing
  has_player_start : Bool
  vertices : List Vertex
  linedefs : List Linedef
  sidedefs : List Sidedef
  sectors : List Sector
  things : List Thing
  deriving Repr, DecidableEq, Inhabited

/-- `WAD::readVertices`: `size / 4` records are decoded; the trailing
`size % 4` bytes are dropped by the integer division. -/
def readVertices (file : List Nat) (offset size : Nat) : List Vertex :=
  let data := readLump file offset size
  (List.range (size / 4)).map fun k =>
    { x := i16 data (4 * k), y := i16 data (4 * k + 2) }

/-- `WAD::readLinedefs` (14-byte records). -/
def readLinedefs (file : List Nat) (offset size : Nat) : List Linedef :=
  let data := readLump file offset size
  (List.range (size / 14)).map fun k =>
    { start_vertex := u16 data (14 * k)
      end_vertex := u16 data (14 * k + 2)
      flags := u16 data (14 * k + 4)
      line_type := u16 data (14 * k + 6)
      sector_tag := u16 data (14 * k + 8)
      right_sidedef := u16 data (14 * k + 10)
      left_sidedef := u16 data (14 * k + 12) }

/-- `WAD::readSidedefs` (30-byte records). -/
def readSidedefs (file : List Nat) (offset size : Nat) : List Sidedef :=
  let data := readLump file offset size
  (List.range (size / 30)).map fun k =>
    { x_offset := i16 data (30 * k)
      y_offset := i16 data (30 * k + 2)
      upper_texture := str8 data (30 * k + 4)
      lower_texture := str8 data (30 * k + 12)
      middle_texture := str8 data (30 * k + 20)
      sector := u16 data (30 * k + 28) }

/-- `WAD::readSectors` (26-byte records). -/
def readSectors (file : List Nat) (offset size : Nat) : List Sector :=
  let data := readLump file offset size
  (List.range (size / 26)).map fun k =>
    { floor_height := i16 data (26 * k)
      ceiling_height := i16 data (26 * k + 2)
      floor_texture := str8 data (26 * k + 4)
      ceiling_texture := str8 data (26 * k + 12)
      light_level := u16 data (26 * k + 20)
      type := u16 data (26 * k + 22)
      tag := u16 data (26 * k + 24) }

/-- `WAD::readThings` (10-byte records). -/
def readThings (file : List Nat) (offset size : Nat) : List Thing :=
  let data := readLump file offset size
  (List.range (size / 10)).map fun k =>
    { x := i16 data (10 * k)
      y := i16 data (10 * k + 2)
      angle := u16 data (10 * k + 4)
      type := u16 data (10 * k + 6)
      flags := u16 data (10 * k + 8) }

/-- Write four consecutive bytes at index `d` (models the four RGBA stores
of the C++ code; `List.set` is a no-op out of range, which the callers flag
explicitly where the C++ write would be out of bounds). -/
def set4 (t : List Nat) (d a b c e : Nat) : List Nat :=
  ((((t.set d a).set (d + 1) b).set (d + 2) c).set (d + 3) e)

/-- Accumulator for `WAD::readPatch`: the RGBA raster plus an
instrumentation flag recording that the C++ code performed a pixel write
whose destination index lies outside the allocated raster (the C++ code
does `patch.pixels[destIndex]` with no bounds check, an out-of-bounds
`std::vector` write). -/
structure PatchAcc where
  pixels : List Nat
  oobWrite : Bool
  deriving Repr, DecidableEq, Inhabited

/-- One run of pixels inside a patch column (the inner `for (y < length)`
loop of `WAD::readPatch`). -/
def patchRunWrite (data : List Nat) (width x topdelta pos : Nat)
    (len : Nat) (acc : PatchAcc) : PatchAcc :=
  (List.range len).foldl
    (fun a y =>
      let pixel := byteAt data (pos + y)
      let destIndex := ((topdelta + y) * width + x) * 4
      { pixels := set4 a.pixels destIndex pixel pixel pixel 255
        oobWrite := a.oobWrite || decide (destIndex + 3 ≥ a.pixels.length) })
    acc

/-- The `while (true)` column walk of `WAD::readPatch`.  The C++ loop is
unbounded and keeps dereferencing the raw buffer until it happens to read a
`0xFF` byte; the model bounds it with fuel (callers pass `data.length + 1`,
enough for any column that terminates inside the lump). -/
def readPatchColumn (data : List Nat) (width x : Nat) :
    Nat → Nat → PatchAcc → PatchAcc
  | 0, _, acc => acc
  | fuel + 1, pos, acc =>
    let topdelta := byteAt data pos
    if topdelta = 255 then acc
    else
      let len := byteAt data (pos + 1)
      let acc' := patchRunWrite data width x topdelta (pos + 3) len acc
      readPatchColumn data width x fuel (pos + 3 + len + 1) acc'

/-- `WAD::readPatch`: decodes the header and walks every column, returning
the patch plus the out-of-bounds-write instrumentation flag. -/
def readPatch (data : List Nat) (name : String) : PatchData × Bool :=
  let width := u16 data 0
  let height := u16 data 2
  let init : PatchAcc := ⟨List.replicate (width * height * 4) 0, false⟩
  let acc := (List.range width).foldl
    (fun a x => readPatchColumn data width x (data.length + 1) (u32 data (8 + 4 * x)) a)
    init
  ({ name := name, width := width, height := height, pixels := acc.pixels },
    acc.oobWrite)

/-- The per-level record lookup of `WAD::processWAD`: `findLump` starting
just after the marker, decoding on success and leaving the collection empty
on failure. -/
def lookupRecords {α : Type} (file : List Nat) (dir : List Directory)
    (name : String) (startIndex : Nat)
    (reader : List Nat → Nat → Nat → List α) : List α :=
  match findLump dir name startIndex with
  | some (offset, size) => reader file offset size
  | none => []

/-- Assembly of one `WAD::Level` at marker index `i` in `WAD::processWAD`. -/
def assembleLevel (file : List Nat) (dir : List Directory) (i : Nat)
    (lumpName : String) : Level :=
  { name := lumpName
    player_start := default
    has_player_start := false
    vertices := lookupRecords file dir "VERTEXES" (i + 1) readVertices
    linedefs := lookupRecords file dir "LINEDEFS" (i + 1) readLinedefs
    sidedefs := lookupRecords file dir "SIDEDEFS" (i + 1) readSidedefs
    sectors := lookupRecords file dir "SECTORS" (i + 1) readSectors
    things := lookupRecords file dir "THINGS" (i + 1) readThings }

/-- The level-assembly loop of `WAD::processWAD` (the texture/patch loading
that precedes it only fills the shared texture fields and does not affect
which levels are produced). -/
def processFrom (file : List Nat) (dir : List Directory) :
    Nat → List Directory → List Level
  | _, [] => []
  | i, e :: rest =>
    let lumpName := dirEntryName e.name
    if isLevelMarker lumpName then
      assembleLevel file dir i lumpName :: processFrom file dir (i + 1) rest
    else
      processFrom file dir (i + 1) rest

/-- `WAD::processWAD` restricted to its observable output for levels: one
`Level` is pushed for every directory entry whose cleaned name is a level
marker. -/
def processWAD (file : List Nat) (dir : List Directory) : List Level :=
  processFrom file dir 0 dir

/-! ## WADConverter (`src/wad-converter.cpp`)

The static `centerX`/`centerY` floats are passed explicitly; `SCALE` is the
constant `1.0f` of the source. -/

/-- `WADConverter::SCALE`. -/
def SCALE : ℚ := 1

/-- `std::numeric_limits<float>::max()` (exactly `2^128 - 2^104`). -/
def fltMax : ℚ := 2 ^ 128 - 2 ^ 104

/-- `std::numeric_limits<float>::lowest()`. -/
def fltLowest : ℚ := -(2 ^ 128 - 2 ^ 104)

/-- `fmodf(a, 1.0f)` for the non-negative arguments produced by
`createSectorGeometry` (both arguments there are `(coord - min) / 64 ≥ 0`). -/
def fmod1 (a : ℚ) : ℚ := a - (⌊a⌋ : ℚ)

/-- One geometry group of `WADConverter::createLevelGeometry` (interleaved
x,y,z,u,v vertex floats plus a triangle index buffer). -/
structure GGroup where
  vertices : List ℚ
  indices : List Nat
  deriving Repr, DecidableEq, Inhabited

/-- `geometryGroups[textureName]` followed by a mutation of the group:
`std::map::operator[]` default-constructs a missing entry; the map is kept
sorted by key exactly as `std::map` iterates it. -/
def updateGroup (m : List (String × GGroup)) (name : String)
    (f : GGroup → GGroup) : List (String × GGroup) :=
  match m with
  | [] => [(name, f ⟨[], []⟩)]
  | (k, g) :: rest =>
    if name < k then (name, f ⟨[], []⟩) :: (k, g) :: rest
    else if name = k then (k, f g) :: rest
    else (k, g) :: updateGroup rest name f

/-- `WADConverter::createWallSection`.  `sq` models the `sqrt` call (its
value only ever flows into the `u2` texture coordinate). -/
def createWallSection (sq : ℚ → ℚ) (cX cY : ℚ) (v1 v2 : Vertex)
    (bottomHeight topHeight : ℚ) (sd : Sidedef) (g : GGroup) : GGroup :=
  let x1 := ((v1.x : ℚ) - cX) * SCALE
  let z1 := ((v1.y : ℚ) - cY) * SCALE
  let x2 := ((v2.x : ℚ) - cX) * SCALE
  let z2 := ((v2.y : ℚ) - cY) * SCALE
  let wallBottom := bottomHeight * SCALE
  let wallTop := topHeight * SCALE
  let wallHeight := wallTop - wallBottom
  if wallHeight ≤ 0 then g
  else
    let wallLength := sq (((v2.x - v1.x : ℤ) : ℚ) ^ 2 + ((v2.y - v1.y : ℤ) : ℚ) ^ 2)
    let uOffset := (sd.x_offset : ℚ)
    let vOffset := (sd.y_offset : ℚ)
    let numRepeats := wallLength / 64
    let u1 := uOffset / 64
    let u2 := u1 + numRepeats
    let tv1 := vOffset / 128
    let tv2 := tv1 + wallHeight / (128 * SCALE)
    let verts := g.vertices ++
      [x1, wallBottom, -z1, u1, tv1,
       x1, wallTop, -z1, u1, tv2,
       x2, wallBottom, -z2, u2, tv1,
       x2, wallTop, -z2, u2, tv2]
    let baseIndex := verts.length / 5 - 4
    { vertices := verts
      indices := g.indices ++
        [baseIndex, baseIndex + 1, baseIndex + 2,
         baseIndex + 1, baseIndex + 3, baseIndex + 2] }

/-- Ascending insertion into a sorted list (used to model `std::sort`). -/
def insertSorted (a : Nat) : List Nat → List Nat
  | [] => [a]
  | b :: l => if a ≤ b then a :: b :: l else b :: insertSorted a l

/-- `std::sort` on the collected vertex indices of one sector. -/
def sortNat (l : List Nat) : List Nat := l.foldr insertSorted []

/-- `std::unique` on a sorted list: drop adjacent duplicates. -/
def dedupSorted : List Nat → List Nat
  | [] => []
  | [a] => [a]
  | a :: b :: rest =>
    if a = b then dedupSorted (b :: rest) else a :: dedupSorted (b :: rest)

/-- `WADConverter::createSectorGeometry`: appends the fan-triangulated
floor (or ceiling) of one sector to the group. -/
def createSectorGeometry (cX cY : ℚ) (levelVertices : List Vertex)
    (sector : Sector) (sv : List Nat) (isFloor : Bool) (g : GGroup) : GGroup :=
  if sv.length < 3 then g
  else
    let height := (if isFloor then (sector.floor_height : ℚ)
      else (sector.ceiling_height : ℚ)) * SCALE
    let baseIndex := g.vertices.length / 5
    let minX := sv.foldl (fun m vi => min m ((levelVertices.getD vi default).x : ℚ)) fltMax
    let minY := sv.foldl (fun m vi => min m ((levelVertices.getD vi default).y : ℚ)) fltMax
    let verts := g.vertices ++ sv.flatMap (fun vi =>
      let vert := levelVertices.getD vi default
      let x := ((vert.x : ℚ) - cX) * SCALE
      let z := ((vert.y : ℚ) - cY) * SCALE
      let u := fmod1 (((vert.x : ℚ) - minX) / 64)
      let v := fmod1 (((vert.y : ℚ) - minY) / 64)
      let v := if isFloor then v else 1 - v
      [x, height, -z, u, v])
    let idxs := (List.range' 1 (sv.length - 2)).flatMap (fun i =>
      if isFloor then [baseIndex, baseIndex + i, baseIndex + i + 1]
      else [baseIndex, baseIndex + i + 1, baseIndex + i])
    { vertices := verts, indices := g.indices ++ idxs }

/-- First-pass state of `createLevelGeometry`: the per-sector vertex-index
lists and the texture-keyed geometry groups. -/
abbrev GeoState := List (List Nat) × List (String × GGroup)

/-- The "Create upper wall if ceilings differ" block of the two-sided case
in `createLevelGeometry` (`sector1` is the left side's sector, `sector2`
the right side's). -/
def upperWallGroups (sq : ℚ → ℚ) (cX cY : ℚ) (v1 v2 : Vertex)
    (rightSide : Sidedef) (sector1 sector2 : Sector)
    (groups : List (String × GGroup)) : List (String × GGroup) :=
  if sector1.ceiling_height > sector2.ceiling_height then
    let textureName := trimFixedString rightSide.upper_texture
    if textureName ≠ "" ∧ textureName ≠ "-" then
      updateGroup groups textureName
        (createWallSection sq cX cY v1 v2 (sector2.ceiling_height : ℚ)
          (sector1.ceiling_height : ℚ) rightSide)
    else groups
  else groups

/-- The "Create lower wall if floors differ" block of the two-sided case. -/
def lowerWallGroups (sq : ℚ → ℚ) (cX cY : ℚ) (v1 v2 : Vertex)
    (rightSide : Sidedef) (sector1 sector2 : Sector)
    (groups : List (String × GGroup)) : List (String × GGroup) :=
  if sector2.floor_height > sector1.floor_height then
    let textureName := trimFixedString rightSide.lower_texture
    if textureName ≠ "" ∧ textureName ≠ "-" then
      updateGroup groups textureName
        (createWallSection sq cX cY v1 v2 (sector1.floor_height : ℚ)
          (sector2.floor_height : ℚ) rightSide)
    else groups
  else groups

/-- The "Create middle wall in gaps" block of the two-sided case. -/
def middleWallGroups (sq : ℚ → ℚ) (cX cY : ℚ) (v1 v2 : Vertex)
    (rightSide : Sidedef) (sector1 sector2 : Sector)
    (groups : List (String × GGroup)) : List (String × GGroup) :=
  let middleTexName := trimFixedString rightSide.middle_texture
  if middleTexName ≠ "" ∧ middleTexName ≠ "-" then
    let upperWallBottom := (sector2.ceiling_height : ℚ)
    let lowerWallTop := (sector2.floor_height : ℚ)
    if (sector1.ceiling_height = sector2.ceiling_height ∧
        sector1.floor_height = sector2.floor_height) ∨
        upperWallBottom > lowerWallTop then
      let bottom := max (sector1.floor_height : ℚ) (sector2.floor_height : ℚ)
      let top := min (sector1.ceiling_height : ℚ) (sector2.ceiling_height : ℚ)
      if top > bottom then
        updateGroup groups middleTexName
          (createWallSection sq cX cY v1 v2 bottom top rightSide)
      else groups
    else groups
  else groups

/-- The one-sided-linedef wall block of `createLevelGeometry`. -/
def oneSidedWallGroups (sq : ℚ → ℚ) (cX cY : ℚ) (v1 v2 : Vertex)
    (rightSide : Sidedef) (sector : Sector)
    (groups : List (String × GGroup)) : List (String × GGroup) :=
  let textureName := trimFixedString rightSide.middle_texture
  if textureName ≠ "" ∧ textureName ≠ "-" then
    updateGroup groups textureName
      (createWallSection sq cX cY v1 v2 (sector.floor_height : ℚ)
        (sector.ceiling_height : ℚ) rightSide)
  else groups

/-- One iteration of the linedef loop of
`WADConverter::createLevelGeometry`. -/
def linedefStep (sq : ℚ → ℚ) (cX cY : ℚ) (level : Level) (st : GeoState)
    (ld : Linedef) : GeoState :=
  if ld.start_vertex ≥ level.vertices.length ∨
      ld.end_vertex ≥ level.vertices.length then st
  else
    let v1 := level.vertices.getD ld.start_vertex default
    let v2 := level.vertices.getD ld.end_vertex default
    if ld.right_sidedef = 65535 ∨ ld.right_sidedef ≥ level.sidedefs.length then st
    else
      let rightSide := level.sidedefs.getD ld.right_sidedef default
      if rightSide.sector ≥ level.sectors.length then st
      else
        let sv' := st.1.set rightSide.sector
          (st.1.getD rightSide.sector [] ++ [ld.start_vertex, ld.end_vertex])
        if ld.left_sidedef ≠ 65535 ∧ ld.left_sidedef < level.sidedefs.length then
          let leftSide := level.sidedefs.getD ld.left_sidedef default
          if leftSide.sector ≥ level.sectors.length then (sv', st.2)
          else
            let sector1 := level.sectors.getD leftSide.sector default
            let sector2 := level.sectors.getD rightSide.sector default
            (sv', middleWallGroups sq cX cY v1 v2 rightSide sector1 sector2
              (lowerWallGroups sq cX cY v1 v2 rightSide sector1 sector2
                (upperWallGroups sq cX cY v1 v2 rightSide sector1 sector2 st.2)))
        else
          let sector := level.sectors.getD rightSide.sector default
          (sv', oneSidedWallGroups sq cX cY v1 v2 rightSide sector st.2)

/-- One iteration of the per-sector floor/ceiling loop of
`WADConverter::createLevelGeometry`. -/
def sectorStep (cX cY : ℚ) (level : Level) (sv : List (List Nat))
    (groups : List (String × GGroup)) (i : Nat) : List (String × GGroup) :=
  let sector := level.sectors.getD i default
  let svi := dedupSorted (sortNat (sv.getD i []))
  let floorTexName := trimFixedString sector.floor_texture
  let g1 :=
    if floorTexName ≠ "" ∧ floorTexName ≠ "-" then
      updateGroup groups floorTexName
        (createSectorGeometry cX cY level.vertices sector svi true)
    else groups
  let ceilingTexName := trimFixedString sector.ceiling_texture
  if ceilingTexName ≠ "" ∧ ceilingTexName ≠ "-" then
    updateGroup g1 ceilingTexName
      (createSectorGeometry cX cY level.vertices sector svi false)
  else g1

/-- `WADConverter::createLevelGeometry`, returning the non-empty geometry
groups (one per texture name) from which the renderable items are built.
The texture-creation calls of the first half of the function only touch the
external texture handler and are modelled separately
(`createFlatTexture`, `createTextureFromDef`). -/
def createLevelGeometry (sq : ℚ → ℚ) (level : Level) :
    List (String × GGroup) :=
  let minX := level.vertices.foldl (fun m v => min m (v.x : ℚ)) fltMax
  let maxX := level.vertices.foldl (fun m v => max m (v.x : ℚ)) fltLowest
  let minY := level.vertices.foldl (fun m v => min m (v.y : ℚ)) fltMax
  let maxY := level.vertices.foldl (fun m v => max m (v.y : ℚ)) fltLowest
  let cX := (minX + maxX) / 2
  let cY := (minY + maxY) / 2
  let init : GeoState := (List.replicate level.sectors.length [], [])
  let st := level.linedefs.foldl (linedefStep sq cX cY level) init
  let groups2 := (List.range level.sectors.length).foldl
    (sectorStep cX cY level st.1) st.2
  groups2.filter (fun p => ¬(p.2.vertices.isEmpty ∨ p.2.indices.isEmpty))

/-- One destination pixel of `WADConverter::compositePatch` (the body of
the nested x/y loops, with all the `continue` guards of the source). -/
def compositeStep (texW texH : ℤ) (patch : PatchData) (originX originY : ℤ)
    (palette : List Color) (t : List Nat) (x y : Nat) : List Nat :=
  let destX := originX + x
  if destX < 0 ∨ destX ≥ texW then t
  else
    let destY := originY + y
    if destY < 0 ∨ destY ≥ texH then t
    else
      let srcIndex := y * patch.width + x
      if srcIndex ≥ patch.pixels.length then t
      else
        let destIndex := (destY * texW + destX) * 4
        if destIndex + 3 ≥ (t.length : ℤ) then t
        else
          let colorIndex := patch.pixels.getD srcIndex 0
          if colorIndex ≥ palette.length then t
          else
            let color := palette.getD colorIndex default
            if colorIndex > 0 then
              set4 t destIndex.toNat color.r color.g color.b 255
            else t

/-- `WADConverter::compositePatch`. -/
def compositePatch (textureData : List Nat) (texW texH : ℤ)
    (patch : PatchData) (originX originY : ℤ) (palette : List Color) :
    List Nat :=
  if patch.pixels = [] ∨ patch.width = 0 ∨ patch.height = 0 then textureData
  else if (textureData.length : ℤ) < texW * texH * 4 then textureData
  else
    (List.range patch.width).foldl
      (fun t x =>
        (List.range patch.height).foldl
          (fun t' y => compositeStep texW texH patch originX originY palette t' x y)
          t)
      textureData

/-- The per-pixel body of `WADConverter::createFlatTexture`. -/
def flatStep (flatData : FlatData) (palette : List Color) (t : List Nat)
    (i : Nat) : List Nat :=
  let colorIndex := byteAt flatData.data i
  if colorIndex ≥ palette.length then t
  else
    let color := palette.getD colorIndex default
    set4 t (i * 4) color.r color.g color.b 255

/-- `WADConverter::createFlatTexture`: `none` when the texture is not
created (already cached, or the flat is not exactly 64*64 bytes). -/
def createFlatTexture (alreadyExists : Bool) (flatData : FlatData)
    (palette : List Color) : Option (List Nat) :=
  if alreadyExists then none
  else if flatData.data.length ≠ 4096 then none
  else
    some ((List.range 4096).foldl (flatStep flatData palette)
      (List.replicate 16384 0))

/-- The guard conditions under which one patch placement of a texture
definition is composited (and sets `hasValidPatches`) in
`WADConverter::createTextureFromDef`. -/
def validPlacement (patches : List PatchData) (pin : PatchInTexture) : Bool :=
  pin.patch_num < patches.length ∧
    ¬((patches.getD pin.patch_num default).pixels = [] ∨
      (patches.getD pin.patch_num default).width = 0 ∨
      (patches.getD pin.patch_num default).height = 0)

/-- One iteration of the patch loop of
`WADConverter::createTextureFromDef`: the accumulator carries the raster
and the `hasValidPatches` flag. -/
def texStep (patches : List PatchData) (palette : List Color)
    (texW texH : Nat) (acc : List Nat × Bool) (pin : PatchInTexture) :
    List Nat × Bool :=
  if pin.patch_num ≥ patches.length then acc
  else if (patches.getD pin.patch_num default).pixels = [] ∨
      (patches.getD pin.patch_num default).width = 0 ∨
      (patches.getD pin.patch_num default).height = 0 then acc
  else
    (compositePatch acc.1 (texW : ℤ) (texH : ℤ)
      (patches.getD pin.patch_num default) pin.origin_x pin.origin_y
      palette, true)

/-- `WADConverter::createTextureFromDef`: `none` when the texture is not
created (already cached, invalid definition, or no valid patch). -/
def createTextureFromDef (alreadyExists : Bool) (texDef : TextureDef)
    (patches : List PatchData) (palette : List Color) : Option (List Nat) :=
  if alreadyExists then none
  else if texDef.width = 0 ∨ texDef.height = 0 ∨ palette = [] then none
  else
    let init := (List.replicate (texDef.width * texDef.height * 4) 128, false)
    let r := texDef.patches.foldl (texStep patches palette texDef.width texDef.height) init
    if r.2 then some r.1 else none

/-- `WADConverter::pointInSector` (cross-product side test). -/
def pointInSector (px py x1 y1 x2 y2 : ℤ) : Bool :=
  (x2 - x1) * (py - y1) - (y2 - y1) * (px - x1) > 0

/-- The sector-search loop of `WADConverter::getPlayerStartPosition`.
The `Bool` component is instrumentation: it records that the C++ code
evaluated `level.vertices[linedef.start_vertex]` or `[...end_vertex]` with
an index outside `level.vertices` (the source performs these accesses with
no bounds check). -/
def findFloorHeight (level : Level) : List Linedef → Bool → ℚ × Bool
  | [], oob => (0, oob)
  | ld :: rest, oob =>
    if ld.right_sidedef ≥ level.sidedefs.length then
      findFloorHeight level rest oob
    else
      let sidedef := level.sidedefs.getD ld.right_sidedef default
      if sidedef.sector ≥ level.sectors.length then
        findFloorHeight level rest oob
      else
        let sector := level.sectors.getD sidedef.sector default
        let oob' := oob || decide (ld.start_vertex ≥ level.vertices.length) ||
          decide (ld.end_vertex ≥ level.vertices.length)
        let v1 := level.vertices.getD ld.start_vertex default
        let v2 := level.vertices.getD ld.end_vertex default
        if pointInSector level.player_start.x level.player_start.y
            v1.x v1.y v2.x v2.y then
          ((sector.floor_height : ℚ), oob')
        else
          findFloorHeight level rest oob'

/-- Result of `WADConverter::getPlayerStartPosition` plus the
out-of-bounds-access instrumentation flag. -/
structure PlayerStartResult where
  pos : Option (ℚ × ℚ × ℚ)
  oobVertexAccess : Bool
  deriving Repr, DecidableEq, Inhabited

/-- `WADConverter::getPlayerStartPosition`. -/
def getPlayerStartPosition (cX cY : ℚ) (level : Level) : PlayerStartResult :=
  if level.has_player_start = false then ⟨none, false⟩
  else
    let x := ((level.player_start.x : ℚ) - cX) * SCALE
    let z := ((level.player_start.y : ℚ) - cY) * SCALE
    let fh := findFloorHeight level level.linedefs false
    let y := (fh.1 + 41 * SCALE) * SCALE
    ⟨some (x, y, -z), fh.2⟩

/-! ## Concrete inputs used by the claim theorems -/

/-- Directory exhibiting two adjacent level markers: `E1M1` at index 0,
`E1M2` at index 1, and E1M2's `VERTEXES` lump at index 2. -/
def dirAdjacentMarkers : List Directory :=
  [⟨0, 0, "E1M1    "⟩, ⟨0, 0, "E1M2    "⟩, ⟨100, 8, "VERTEXES"⟩]

/-- Directory safely exercising a level-scoped lookup: the `E1M1` marker at
index 0 followed by its `VERTEXES` lump. -/
def dirOneLevel : List Directory :=
  [⟨0, 0, "E1M1    "⟩, ⟨12, 8, "VERTEXES"⟩]

/-- A 5-byte vertex lump (not a multiple of the 4-byte record size). -/
def oddVertexLump : List Nat := [1, 0, 2, 0, 99]

/-- Directory holding only a level marker and no geometry lumps at all. -/
def dirMarkerOnly : List Directory := [⟨0, 0, "E1M1    "⟩]

/-- Patch lump bytes: width 1, height 1, single column at offset 12 whose
only run has top-delta 0 and length 2 — the second run pixel lands one row
below the 1-pixel-high raster. -/
def tallRunPatchBytes : List Nat :=
  [1, 0, 1, 0, 0, 0, 0, 0, 12, 0, 0, 0, 0, 2, 0, 7, 7, 0, 255]

/-- A level whose only linedef has `start_vertex = 5` while only one vertex
exists; the right sidedef and its sector are valid, so
`getPlayerStartPosition` reaches the unchecked vertex dereference. -/
def lvlBadVertexRef : Level :=
  { name := "E1M1"
    player_start := { x := 0, y := 0, angle := 0, type := 1, flags := 0 }
    has_player_start := true
    vertices := [⟨0, 0⟩]
    linedefs := [{ start_vertex := 5, end_vertex := 0, flags := 0,
                   line_type := 0, sector_tag := 0, right_sidedef := 0,
                   left_sidedef := 65535 }]
    sidedefs := [{ x_offset := 0, y_offset := 0, upper_texture := "-",
                   lower_texture := "-", middle_texture := "-", sector := 0 }]
    sectors := [{ floor_height := 0, ceiling_height := 64,
                  floor_texture := "-", ceiling_texture := "-",
                  light_level := 0, type := 0, tag := 0 }]
    things := [] }

/-- Two sectors sharing one two-sided linedef: the right side's sector has
floor height 24, the left side's sector floor height 0, equal ceilings.
Wall textures: upper `UPTEX`, lower `LOWTEX`, middle/flats placeholders. -/
def lvlTwoSector : Level :=
  { name := "E1M1"
    player_start := default
    has_player_start := false
    vertices := [⟨0, 0⟩, ⟨64, 0⟩]
    linedefs := [{ start_vertex := 0, end_vertex := 1, flags := 0,
                   line_type := 0, sector_tag := 0, right_sidedef := 0,
                   left_sidedef := 1 }]
    sidedefs := [{ x_offset := 0, y_offset := 0, upper_texture := "UPTEX",
                   lower_texture := "LOWTEX", middle_texture := "-",
                   sector := 1 },
                 { x_offset := 0, y_offset := 0, upper_texture := "-",
                   lower_texture := "-", middle_texture := "-", sector := 0 }]
    sectors := [{ floor_height := 0, ceiling_height := 128,
                  floor_texture := "-", ceiling_texture := "-",
                  light_level := 0, type := 0, tag := 0 },
                { floor_height := 24, ceiling_height := 128,
                  floor_texture := "-", ceiling_texture := "-",
                  light_level := 0, type := 0, tag := 0 }]
    things := [] }

/-- One square sector: 4 vertices, 4 linedefs all facing the sector through
the single sidedef, floor 0, ceiling 64, distinct flat texture names. -/
def lvlSquareSector : Level :=
  { name := "E1M1"
    player_start := default
    has_player_start := false
    vertices := [⟨0, 0⟩, ⟨64, 0⟩, ⟨64, 64⟩, ⟨0, 64⟩]
    linedefs := [{ start_vertex := 0, end_vertex := 1, flags := 0,
                   line_type := 0, sector_tag := 0, right_sidedef := 0,
                   left_sidedef := 65535 },
                 { start_vertex := 1, end_vertex := 2, flags := 0,
                   line_type := 0, sector_tag := 0, right_sidedef := 0,
                   left_sidedef := 65535 },
                 { start_vertex := 2, end_vertex := 3, flags := 0,
                   line_type := 0, sector_tag := 0, right_sidedef := 0,
                   left_sidedef := 65535 },
                 { start_vertex := 3, end_vertex := 0, flags := 0,
                   line_type := 0, sector_tag := 0, right_sidedef := 0,
                   left_sidedef := 65535 }]
    sidedefs := [{ x_offset := 0, y_offset := 0, upper_texture := "-",
                   lower_texture := "-", middle_texture := "-", sector := 0 }]
    sectors := [{ floor_height := 0, ceiling_height := 64,
                  floor_texture := "FLOOR1", ceiling_texture := "CEIL1",
                  light_level := 0, type := 0, tag := 0 }]
    things := [] }

/-! ## Helper lemmas -/

/-- Invariant preservation along a left fold. -/
theorem foldl_inv {σ α : Type} {P : σ → Prop} {f : σ → α → σ} :
    ∀ (l : List α) (s : σ), P s → (∀ t a, a ∈ l → P t → P (f t a)) →
      P (l.foldl f s)
  | [], _s, h0, _ => h0
  | a :: l, s, h0, hstep =>
    foldl_inv l (f s a) (hstep s a (List.mem_cons_self a l) h0)
      (fun t b hb ht => hstep t b (List.mem_cons_of_mem a hb) ht)

theorem length_set4 (t : List Nat) (d a b c e : Nat) :
    (set4 t d a b c e).length = t.length := by
  simp [set4]

theorem getD_set4_ne (t : List Nat) (d a b c e p z : Nat)
    (h : p < d ∨ d + 3 < p) :
    (set4 t d a b c e).getD p z = t.getD p z := by
  simp only [set4, List.getD_eq_getElem?_getD]
  rw [List.getElem?_set_ne (by omega), List.getElem?_set_ne (by omega),
    List.getElem?_set_ne (by omega), List.getElem?_set_ne (by omega)]

theorem getD_set4_self (t : List Nat) (d a b c e z : Nat)
    (h : d + 3 < t.length) :
    (set4 t d a b c e).getD d z = a ∧
    (set4 t d a b c e).getD (d + 1) z = b ∧
    (set4 t d a b c e).getD (d + 2) z = c ∧
    (set4 t d a b c e).getD (d + 3) z = e := by
  simp only [set4, List.getD_eq_getElem?_getD]
  refine ⟨?_, ?_, ?_, ?_⟩
  · rw [List.getElem?_set_ne (by omega), List.getElem?_set_ne (by omega),
      List.getElem?_set_ne (by omega), List.getElem?_set_self (by omega)]
    rfl
  · rw [List.getElem?_set_ne (by omega), List.getElem?_set_ne (by omega),
      List.getElem?_set_self (by simp; omega)]
    rfl
  · rw [List.getElem?_set_ne (by omega),
      List.getElem?_set_self (by simp; omega)]
    rfl
  · rw [List.getElem?_set_self (by simp; omega)]
    rfl

/-- The scan of `findLumpFrom` never steps past a level marker located
strictly after `startIndex`: every scanned position from `startIndex + 1`
up to the returned index is marker-free. -/
theorem findLumpFrom_no_marker (name : String) (s : Nat)
    (h1 : isLevelDataName name = true) :
    ∀ (l : List Directory) (i j : Nat), findLumpFrom name s i l = some j →
      ∀ k, s < k → i ≤ k → k ≤ j →
        isLevelMarker (strnlen8 ((l.getD (k - i) default).name)) = false := by
  intro l
  induction l with
  | nil => intro i j h; simp [findLumpFrom] at h
  | cons e rest ih =>
    intro i j h k hsk hik hkj
    rw [findLumpFrom] at h
    by_cases hguard :
        isLevelDataName name ∧ i > s ∧ isLevelMarker (strnlen8 e.name)
    · simp only [if_pos hguard] at h
      exact absurd h (by simp)
    · simp only [if_neg hguard] at h
      rcases Nat.eq_or_lt_of_le hik with hk | hk
      · subst hk
        simp only [Nat.sub_self, List.getD_cons_zero]
        by_contra hm
        exact hguard ⟨h1, hsk, by simpa using hm⟩
      · by_cases hmatch : strnlen8 e.name = name
        · simp only [if_pos hmatch, Option.some.injEq] at h
          exact absurd h (by omega)
        · simp only [if_neg hmatch] at h
          have := ih (i + 1) j h k hsk (by omega) hkj
          have hki : k - i = (k - (i + 1)) + 1 := by omega
          rw [hki, List.getD_cons_succ]
          exact this

theorem getD_drop {α : Type} (l : List α) (s k : Nat) (h : s ≤ k) (d : α) :
    (l.drop s).getD (k - s) d = l.getD k d := by
  simp only [List.getD_eq_getElem?_getD, List.getElem?_drop]
  rw [Nat.add_sub_cancel' h]

/-! ## Claim C1 -/

/-- C1, counterexample: with the `E1M1` marker at index 0, the next level
marker `E1M2` immediately at index 1 and E1M2's `VERTEXES` lump at index 2,
`findLump("VERTEXES", startIndex = 1)` (a startIndex just after the `E1M1`
marker) returns `(offset, size) = (100, 8)` — the lump at index 2, which is
positioned after the next level marker in directory order.  The scan does
not stop at the marker sitting exactly at `startIndex`. -/
theorem c1_findLump_crosses_adjacent_marker :
    isLevelMarker (strnlen8 ((dirAdjacentMarkers.getD 0 default).name)) = true ∧
    isLevelMarker (strnlen8 ((dirAdjacentMarkers.getD 1 default).name)) = true ∧
    findLumpIdx dirAdjacentMarkers "VERTEXES" 1 = some 2 ∧
    findLump dirAdjacentMarkers "VERTEXES" 1 = some (100, 8) :=
  ⟨by decide, by decide, by decide, by decide⟩

/-- C1 (amended): for a level-scoped geometry name, `findLump` never
returns a lump positioned at or after a level marker whose index is
strictly greater than `startIndex`: every directory position from
`startIndex + 1` up to the returned index is marker-free.  (A marker
located exactly at `startIndex` does not stop the scan.) -/
theorem c1_findLump_scoped (dir : List Directory) (name : String)
    (s j k : Nat) (h1 : isLevelDataName name = true)
    (h2 : findLumpIdx dir name s = some j) (h3 : s < k) (h4 : k ≤ j) :
    isLevelMarker (strnlen8 ((dir.getD k default).name)) = false := by
  have hmain := findLumpFrom_no_marker name s h1 (dir.drop s) s j h2 k h3
    (Nat.le_of_lt h3) h4
  rwa [getD_drop dir s k (Nat.le_of_lt h3)] at hmain

/-- C1, witness: concrete instance of `c1_findLump_scoped` on a directory
with the `E1M1` marker at index 0 and its `VERTEXES` lump at index 1. -/
theorem c1_findLump_scoped_witness :
    isLevelDataName "VERTEXES" = true ∧
    findLumpIdx dirOneLevel "VERTEXES" 0 = some 1 ∧ 0 < 1 ∧ 1 ≤ 1 ∧
    isLevelMarker (strnlen8 ((dirOneLevel.getD 1 default).name)) = false :=
  ⟨by decide, by decide, by decide, by decide,
    c1_findLump_scoped dirOneLevel "VERTEXES" 0 1 1 (by decide) (by decide)
      (by decide) (by decide)⟩

/-! ## Claim C2 -/

/-- C2, counterexample: a 5-byte vertex lump (5 is not a multiple of the
4-byte record size) is decoded to a one-element, partially-decoded array —
no error of any kind is raised (the C++ function has no failure path). -/
theorem c2_odd_lump_partially_decoded :
    5 % 4 ≠ 0 ∧ readVertices oddVertexLump 0 5 = [{ x := 1, y := 2 }] :=
  ⟨by decide, by decide⟩

/-- C2 (amended): each fixed-record decoder returns exactly
`size / recordSize` records (truncating integer division) for every input;
a lump length not divisible by the record size loses its trailing remainder
bytes and yields a partially-decoded array rather than an error. -/
theorem c2_decoders_truncate (file : List Nat) (offset size : Nat) :
    (readVertices file offset size).length = size / 4 ∧
    (readLinedefs file offset size).length = size / 14 ∧
    (readSidedefs file offset size).length = size / 30 ∧
    (readSectors file offset size).length = size / 26 ∧
    (readThings file offset size).length = size / 10 := by
  refine ⟨?_, ?_, ?_, ?_, ?_⟩ <;>
    simp [readVertices, readLinedefs, readSidedefs, readSectors, readThings]

/-! ## Claim C6 -/

/-- C6, counterexample: a directory holding a single `E1M1` marker and no
geometry lumps still produces one `Level`, with all four required geometry
collections empty — `processWAD` pushes the level unconditionally. -/
theorem c6_empty_level_still_produced :
    (processWAD [] dirMarkerOnly).length = 1 ∧
    ((processWAD [] dirMarkerOnly).getD 0 default).vertices = [] ∧
    ((processWAD [] dirMarkerOnly).getD 0 default).linedefs = [] ∧
    ((processWAD [] dirMarkerOnly).getD 0 default).sidedefs = [] ∧
    ((processWAD [] dirMarkerOnly).getD 0 default).sectors = [] :=
  ⟨by decide, by decide, by decide, by decide, by decide⟩

theorem processFrom_names (file : List Nat) (dir : List Directory) :
    ∀ (l : List Directory) (i : Nat),
      (processFrom file dir i l).map Level.name =
        (l.map (fun e => dirEntryName e.name)).filter isLevelMarker := by
  intro l
  induction l with
  | nil => intro i; rfl
  | cons e rest ih =>
    intro i
    rw [processFrom]
    by_cases hm : isLevelMarker (dirEntryName e.name)
    · simp [hm, ih (i + 1), assembleLevel]
    · simp [hm, ih (i + 1)]

/-- C6 (amended): `processWAD` produces exactly one `Level` per directory
entry whose cleaned name is a level marker, whether or not any geometry
lumps were found for it; the produced level names are exactly the marker
names in directory order (whatever partial records the per-level lookups
found are retained in the level's collections). -/
theorem c6_one_level_per_marker (file : List Nat) (dir : List Directory) :
    (processWAD file dir).map Level.name =
      (dir.map (fun e => dirEntryName e.name)).filter isLevelMarker :=
  processFrom_names file dir dir 0

/-! ## Claim C3 -/

/-- C3: on the patch `tallRunPatchBytes` (width 1, height 1, whose single
column run has top-delta 0 and length 2) `readPatch` allocates a 4-byte
raster but performs a pixel write at destination index 4 with no bounds
check: the out-of-bounds-write instrumentation flag is set.  In the C++
source this is an out-of-bounds `std::vector` write, not a silent skip. -/
theorem c3_readPatch_writes_out_of_bounds :
    (readPatch tallRunPatchBytes "P1").1.width = 1 ∧
    (readPatch tallRunPatchBytes "P1").1.height = 1 ∧
    (readPatch tallRunPatchBytes "P1").1.pixels.length = 4 ∧
    (readPatch tallRunPatchBytes "P1").2 = true :=
  ⟨by decide, by decide, by decide, by decide⟩

/-! ## Claim C5 -/

/-- C5: `getPlayerStartPosition` dereferences
`level.vertices[linedef.start_vertex]` without validating the index: on
`lvlBadVertexRef` (one vertex, a linedef with `start_vertex = 5` and valid
sidedef/sector references) the unchecked out-of-bounds vertex access is
reached. -/
theorem c5_playerStart_unchecked_vertex_access :
    (getPlayerStartPosition 0 0 lvlBadVertexRef).oobVertexAccess = true := by
  rfl

/-! ## Claim C7 -/

set_option maxHeartbeats 4000000 in
/-- C7: on `lvlTwoSector` (two sectors sharing one two-sided linedef,
right sector floor 24, left sector floor 0, equal ceilings)
`createLevelGeometry` emits exactly one geometry group, keyed by the right
side's lower-texture name `LOWTEX`, holding exactly one wall quad
(4 vertices, 6 indices) whose four y coordinates (vertex-buffer positions
1, 6, 11, 16) span heights 0 and 24; no group for the upper texture
`UPTEX` (or any other name) exists, i.e. zero upper wall quads.  The
statement holds for every model `sq` of `sqrt`. -/
theorem c7_lower_wall_only (sq : ℚ → ℚ) :
    (createLevelGeometry sq lvlTwoSector).map Prod.fst = ["LOWTEX"] ∧
    ((createLevelGeometry sq lvlTwoSector).getD 0 default).2.indices =
      [0, 1, 2, 1, 3, 2] ∧
    ((createLevelGeometry sq lvlTwoSector).getD 0 default).2.vertices.length = 20 ∧
    ((createLevelGeometry sq lvlTwoSector).getD 0 default).2.vertices.getD 1 0 = 0 ∧
    ((createLevelGeometry sq lvlTwoSector).getD 0 default).2.vertices.getD 6 0 = 24 ∧
    ((createLevelGeometry sq lvlTwoSector).getD 0 default).2.vertices.getD 11 0 = 0 ∧
    ((createLevelGeometry sq lvlTwoSector).getD 0 default).2.vertices.getD 16 0 = 24 := by
  refine ⟨?_, ?_, ?_, ?_, ?_, ?_, ?_⟩ <;> with_unfolding_all rfl

/-! ## Claim C8 -/

set_option maxHeartbeats 4000000 in
/-- C8: on `lvlSquareSector` (one square sector: 4 vertices, 4 linedefs
whose right sides all face the sector through one sidedef, floor 0,
ceiling 64, flat textures `FLOOR1`/`CEIL1`) `createLevelGeometry` produces
exactly two groups — one ceiling group `CEIL1` and one floor group
`FLOOR1` — each with 4 vertices (20 floats) and 6 indices forming a
2-triangle fan, the ceiling triangles' winding reversed relative to the
floor triangles' (`[0,2,1, 0,3,2]` versus `[0,1,2, 0,2,3]`). -/
theorem c8_square_sector_fans (sq : ℚ → ℚ) :
    (createLevelGeometry sq lvlSquareSector).map Prod.fst = ["CEIL1", "FLOOR1"] ∧
    ((createLevelGeometry sq lvlSquareSector).getD 1 default).2.vertices.length = 20 ∧
    ((createLevelGeometry sq lvlSquareSector).getD 1 default).2.indices =
      [0, 1, 2, 0, 2, 3] ∧
    ((createLevelGeometry sq lvlSquareSector).getD 0 default).2.vertices.length = 20 ∧
    ((createLevelGeometry sq lvlSquareSector).getD 0 default).2.indices =
      [0, 2, 1, 0, 3, 2] := by
  refine ⟨?_, ?_, ?_, ?_, ?_⟩ <;> with_unfolding_all rfl

/-! ## Claim C9 -/

theorem texStep_invalid_index (patches : List PatchData) (pal : List Color)
    (w h : Nat) (acc : List Nat × Bool) (pin : PatchInTexture)
    (hinv : pin.patch_num ≥ patches.length) :
    texStep patches pal w h acc pin = acc := by
  simp only [texStep, if_pos hinv]

theorem texStep_invalid_data (patches : List PatchData) (pal : List Color)
    (w h : Nat) (acc : List Nat × Bool) (pin : PatchInTexture)
    (h1 : ¬pin.patch_num ≥ patches.length)
    (h2 : (patches.getD pin.patch_num default).pixels = [] ∨
      (patches.getD pin.patch_num default).width = 0 ∨
      (patches.getD pin.patch_num default).height = 0) :
    texStep patches pal w h acc pin = acc := by
  simp only [texStep, if_neg h1, if_pos h2]

theorem texStep_valid (patches : List PatchData) (pal : List Color)
    (w h : Nat) (acc : List Nat × Bool) (pin : PatchInTexture)
    (h1 : ¬pin.patch_num ≥ patches.length)
    (h2 : ¬((patches.getD pin.patch_num default).pixels = [] ∨
      (patches.getD pin.patch_num default).width = 0 ∨
      (patches.getD pin.patch_num default).height = 0)) :
    texStep patches pal w h acc pin =
      (compositePatch acc.1 (w : ℤ) (h : ℤ)
        (patches.getD pin.patch_num default) pin.origin_x pin.origin_y pal,
        true) := by
  simp only [texStep, if_neg h1, if_neg h2]

theorem foldl_texStep_filter (patches : List PatchData) (pal : List Color)
    (w h : Nat) :
    ∀ (l : List PatchInTexture) (acc : List Nat × Bool),
      l.foldl (texStep patches pal w h) acc =
        (l.filter (fun pin => decide (pin.patch_num < patches.length))).foldl
          (texStep patches pal w h) acc := by
  intro l
  induction l with
  | nil => intro acc; rfl
  | cons pin rest ih =>
    intro acc
    by_cases hv : pin.patch_num < patches.length
    · simp only [List.foldl_cons, List.filter_cons, decide_eq_true_eq,
        if_pos hv, ih]
    · simp only [List.foldl_cons, List.filter_cons, decide_eq_true_eq,
        if_neg hv, texStep_invalid_index patches pal w h acc pin (by omega), ih]

theorem foldl_texStep_snd (patches : List PatchData) (pal : List Color)
    (w h : Nat) :
    ∀ (l : List PatchInTexture) (t : List Nat) (hv : Bool),
      (l.foldl (texStep patches pal w h) (t, hv)).2 =
        (hv || l.any (validPlacement patches)) := by
  intro l
  induction l with
  | nil => intro t hv; simp
  | cons pin rest ih =>
    intro t hv
    rw [List.foldl_cons, List.any_cons]
    by_cases h1 : pin.patch_num ≥ patches.length
    · have hval : validPlacement patches pin = false := by
        simp only [validPlacement]
        exact decide_eq_false (fun hcon => absurd hcon.1 (by omega))
      rw [texStep_invalid_index patches pal w h (t, hv) pin h1, ih, hval,
        Bool.false_or]
    · by_cases h2 : (patches.getD pin.patch_num default).pixels = [] ∨
          (patches.getD pin.patch_num default).width = 0 ∨
          (patches.getD pin.patch_num default).height = 0
      · have hval : validPlacement patches pin = false := by
          simp only [validPlacement]
          exact decide_eq_false (fun hcon => absurd h2 hcon.2)
        rw [texStep_invalid_data patches pal w h (t, hv) pin h1 h2, ih, hval,
          Bool.false_or]
      · have hval : validPlacement patches pin = true := by
          simp only [validPlacement]
          exact decide_eq_true ⟨by omega, h2⟩
        rw [texStep_valid patches pal w h (t, hv) pin h1 h2, ih, hval,
          Bool.true_or, Bool.or_true]

/-- C9: `createTextureFromDef` ignores out-of-range patch indices — its
result is unchanged when the out-of-range placements are removed from the
texture definition — and a texture is created (`isSome`) exactly when the
texture is not cached, its dimensions are non-zero, the palette is
non-empty, and at least one placement composites successfully
(`validPlacement`: in-range index and non-degenerate patch data); with
zero successfully composited patches no texture is created. -/
theorem c9_texture_from_valid_patches (ae : Bool) (td : TextureDef)
    (patches : List PatchData) (pal : List Color) :
    createTextureFromDef ae td patches pal =
      createTextureFromDef ae
        { td with patches :=
            td.patches.filter (fun pin => decide (pin.patch_num < patches.length)) }
        patches pal ∧
    ((createTextureFromDef ae td patches pal).isSome ↔
      ae = false ∧ td.width ≠ 0 ∧ td.height ≠ 0 ∧ pal ≠ [] ∧
        td.patches.any (validPlacement patches) = true) := by
  constructor
  · by_cases hae : ae = true
    · simp [createTextureFromDef, hae]
    · by_cases hdim : td.width = 0 ∨ td.height = 0 ∨ pal = []
      · simp [createTextureFromDef, hae, hdim]
      · simp only [createTextureFromDef, if_neg hae]
        rw [if_neg hdim]
        rw [foldl_texStep_filter patches pal td.width td.height td.patches]
        rw [if_neg hdim]
  · by_cases hae : ae = true
    · simp [createTextureFromDef, hae]
    · by_cases hdim : td.width = 0 ∨ td.height = 0 ∨ pal = []
      · simp only [createTextureFromDef, if_neg hae]
        rw [if_pos hdim]
        simp only [Option.isSome_none, Bool.false_eq_true, false_iff]
        tauto
      · simp only [createTextureFromDef, if_neg hae]
        rw [if_neg hdim]
        rw [foldl_texStep_snd patches pal td.width td.height td.patches]
        simp only [Bool.false_or]
        push_neg at hdim
        by_cases hany : td.patches.any (validPlacement patches) = true
        · rw [if_pos hany]
          simp only [Option.isSome_some, true_iff]
          exact ⟨by simpa using hae, hdim.1, hdim.2.1, hdim.2.2, hany⟩
        · rw [if_neg hany]
          simp only [Option.isSome_none, Bool.false_eq_true, false_iff]
          intro hcon
          exact hany hcon.2.2.2.2

/-! ## Claim C4 -/

/-- If the patch pixel at `(x, y)` has palette index 0 and `d` is the
destination byte index of `(x, y)`, then no single iteration of the
compositing loops — at any `(x', y')` — changes the texture bytes
`d .. d + 3`: an iteration either skips, or writes the four bytes of a
different destination pixel. -/
theorem compositeStep_preserves (texW texH : ℤ) (patch : PatchData)
    (oX oY : ℤ) (pal : List Color) (x y d k : Nat)
    (hpix : patch.pixels.getD (y * patch.width + x) 0 = 0)
    (hx0 : 0 ≤ oX + (x : ℤ)) (hx1 : oX + (x : ℤ) < texW)
    (hy0 : 0 ≤ oY + (y : ℤ)) (hy1 : oY + (y : ℤ) < texH)
    (hd : ((oY + (y : ℤ)) * texW + (oX + (x : ℤ))) * 4 = (d : ℤ))
    (hk : k < 4) (t : List Nat) (x' y' : Nat) :
    (compositeStep texW texH patch oX oY pal t x' y').getD (d + k) 0 =
      t.getD (d + k) 0 := by
  simp only [compositeStep]
  split_ifs with h1 h2 h3 h4 h5 h6
  · rfl
  · rfl
  · rfl
  · rfl
  · rfl
  · -- the write branch
    push_neg at h1 h2
    obtain ⟨hx'0, hx'1⟩ := h1
    obtain ⟨hy'0, hy'1⟩ := h2
    apply getD_set4_ne
    by_contra hcon
    push_neg at hcon
    obtain ⟨hlo, hhi⟩ := hcon
    have hTpos : (0 : ℤ) < texW := lt_of_le_of_lt hx0 hx1
    have hBnn : 0 ≤ (oY + (y' : ℤ)) * texW + (oX + (x' : ℤ)) :=
      add_nonneg (mul_nonneg hy'0 hTpos.le) hx'0
    have hdtn : ((((oY + (y' : ℤ)) * texW + (oX + (x' : ℤ))) * 4).toNat : ℤ) =
        ((oY + (y' : ℤ)) * texW + (oX + (x' : ℤ))) * 4 :=
      Int.toNat_of_nonneg (mul_nonneg hBnn (by norm_num))
    have hab : (oY + (y : ℤ)) * texW + (oX + (x : ℤ)) =
        (oY + (y' : ℤ)) * texW + (oX + (x' : ℤ)) := by
      generalize hA : (oY + (y : ℤ)) * texW + (oX + (x : ℤ)) = A at hd
      generalize hB : (oY + (y' : ℤ)) * texW + (oX + (x' : ℤ)) = B at hdtn
      omega
    have hQ : oX + (x' : ℤ) = oX + (x : ℤ) := by
      have hdvd : texW ∣ (oX + (x' : ℤ)) - (oX + (x : ℤ)) :=
        ⟨(oY + (y : ℤ)) - (oY + (y' : ℤ)), by linear_combination -hab⟩
      have habs : |(oX + (x' : ℤ)) - (oX + (x : ℤ))| < texW :=
        abs_lt.mpr ⟨by omega, by omega⟩
      have := Int.eq_zero_of_abs_lt_dvd hdvd habs
      omega
    have hx'x : x' = x := by omega
    have hP : oY + (y' : ℤ) = oY + (y : ℤ) := by
      have hmul : (oY + (y' : ℤ)) * texW = (oY + (y : ℤ)) * texW := by
        linear_combination -hab - hQ
      exact mul_right_cancel₀ (by omega) hmul
    have hy'y : y' = y := by omega
    subst hx'x
    subst hy'y
    rw [hpix] at h6
    exact absurd h6 (lt_irrefl 0)
  · rfl

/-- The whole of `compositePatch` leaves the destination bytes of a
zero-index patch pixel untouched. -/
theorem compositePatch_preserves (texData : List Nat) (texW texH : ℤ)
    (patch : PatchData) (oX oY : ℤ) (pal : List Color) (x y d k : Nat)
    (hpix : patch.pixels.getD (y * patch.width + x) 0 = 0)
    (hx0 : 0 ≤ oX + (x : ℤ)) (hx1 : oX + (x : ℤ) < texW)
    (hy0 : 0 ≤ oY + (y : ℤ)) (hy1 : oY + (y : ℤ) < texH)
    (hd : ((oY + (y : ℤ)) * texW + (oX + (x : ℤ))) * 4 = (d : ℤ))
    (hk : k < 4) :
    (compositePatch texData texW texH patch oX oY pal).getD (d + k) 0 =
      texData.getD (d + k) 0 := by
  simp only [compositePatch]
  split_ifs with h1 h2
  · rfl
  · rfl
  · refine foldl_inv
      (P := fun t : List Nat => t.getD (d + k) 0 = texData.getD (d + k) 0)
      _ _ rfl ?_
    intro t a _ ht
    refine foldl_inv
      (P := fun t : List Nat => t.getD (d + k) 0 = texData.getD (d + k) 0)
      _ _ ht ?_
    intro t' b _ ht'
    rw [compositeStep_preserves texW texH patch oX oY pal x y d k hpix hx0 hx1
      hy0 hy1 hd hk t' a b]
    exact ht'

theorem flatStep_length (fd : FlatData) (pal : List Color) (t : List Nat)
    (j : Nat) : (flatStep fd pal t j).length = t.length := by
  simp only [flatStep]
  split_ifs
  · rfl
  · exact length_set4 _ _ _ _ _ _

theorem flat_foldl_length (fd : FlatData) (pal : List Color) :
    ∀ (l : List Nat) (acc : List Nat),
      (l.foldl (flatStep fd pal) acc).length = acc.length := by
  intro l
  induction l with
  | nil => intro acc; rfl
  | cons j rest ih =>
    intro acc
    rw [List.foldl_cons, ih, flatStep_length]

/-- A `flatStep` at pixel `j ≠ i` never touches the four destination bytes
of pixel `i`. -/
theorem flatStep_preserves_block (fd : FlatData) (pal : List Color)
    (i j p : Nat) (hne : j ≠ i) (hp1 : i * 4 ≤ p) (hp2 : p ≤ i * 4 + 3)
    (t : List Nat) :
    (flatStep fd pal t j).getD p 0 = t.getD p 0 := by
  simp only [flatStep]
  split_ifs
  · rfl
  · exact getD_set4_ne _ _ _ _ _ _ _ _ (by omega)

/-- `createFlatTexture` writes the palette color of index 0 (at full
opacity) at the destination of every flat pixel whose index is 0. -/
theorem createFlatTexture_writes_palette0 (fd : FlatData) (pal : List Color)
    (i : Nat) (hlen : fd.data.length = 4096) (hi : i < 4096)
    (h0 : byteAt fd.data i = 0) (hpal : 0 < pal.length) :
    ∃ t, createFlatTexture false fd pal = some t ∧
      t.getD (i * 4) 0 = (pal.getD 0 default).r ∧
      t.getD (i * 4 + 1) 0 = (pal.getD 0 default).g ∧
      t.getD (i * 4 + 2) 0 = (pal.getD 0 default).b ∧
      t.getD (i * 4 + 3) 0 = 255 := by
  have hcf : createFlatTexture false fd pal =
      some ((List.range 4096).foldl (flatStep fd pal)
        (List.replicate 16384 0)) := by
    unfold createFlatTexture
    rw [if_neg Bool.false_ne_true, if_neg (not_ne_iff.mpr hlen)]
  refine ⟨_, hcf, ?_⟩
  have h1 := List.range'_append 0 i (4096 - i) 1
  simp only [Nat.zero_add, Nat.one_mul] at h1
  rw [show (4096 - i) + i = 4096 from by omega] at h1
  have hsplit : List.range 4096 = List.range i ++ List.range' i (4096 - i) := by
    rw [List.range_eq_range', List.range_eq_range']
    exact h1.symm
  obtain ⟨m, hm⟩ : ∃ m, 4096 - i = m + 1 := ⟨4096 - i - 1, by omega⟩
  have hsucc : List.range' i (4096 - i) = i :: List.range' (i + 1) m := by
    rw [hm, List.range'_succ]
  set t1 := (List.range i).foldl (flatStep fd pal) (List.replicate 16384 0)
    with hT1
  have ht1len : t1.length = 16384 := by
    rw [hT1, flat_foldl_length]
    exact List.length_replicate 16384 0
  have ht2 : flatStep fd pal t1 i =
      set4 t1 (i * 4) (pal.getD 0 default).r (pal.getD 0 default).g
        (pal.getD 0 default).b 255 := by
    simp only [flatStep, h0]
    rw [if_neg (by omega)]
  have hblock := getD_set4_self t1 (i * 4) (pal.getD 0 default).r
    (pal.getD 0 default).g (pal.getD 0 default).b 255 0 (by omega)
  rw [hsplit, List.foldl_append, hsucc, List.foldl_cons, ← hT1, ht2]
  refine foldl_inv (P := fun t : List Nat =>
      t.getD (i * 4) 0 = (pal.getD 0 default).r ∧
      t.getD (i * 4 + 1) 0 = (pal.getD 0 default).g ∧
      t.getD (i * 4 + 2) 0 = (pal.getD 0 default).b ∧
      t.getD (i * 4 + 3) 0 = 255)
    _ _ hblock ?_
  intro t j hj ht
  have hjge : i + 1 ≤ j := by
    rw [List.mem_range'] at hj
    obtain ⟨c, _, hc⟩ := hj
    omega
  refine ⟨?_, ?_, ?_, ?_⟩
  · rw [flatStep_preserves_block fd pal i j (i * 4) (by omega) (by omega)
      (by omega) t]
    exact ht.1
  · rw [flatStep_preserves_block fd pal i j (i * 4 + 1) (by omega) (by omega)
      (by omega) t]
    exact ht.2.1
  · rw [flatStep_preserves_block fd pal i j (i * 4 + 2) (by omega) (by omega)
      (by omega) t]
    exact ht.2.2.1
  · rw [flatStep_preserves_block fd pal i j (i * 4 + 3) (by omega) (by omega)
      (by omega) t]
    exact ht.2.2.2

/-- C4: during texture compositing (`compositePatch`) a patch pixel whose
palette index equals 0 never overwrites its destination bytes in the
texture, while during flat building (`createFlatTexture`) a flat pixel
whose palette index equals 0 does overwrite its destination with the
palette color at index 0 at full opacity (alpha 255) — flats have no
transparency. -/
theorem c4_zero_index_transparency :
    (∀ (texData : List Nat) (texW texH : ℤ) (patch : PatchData) (oX oY : ℤ)
      (pal : List Color) (x y d k : Nat),
      patch.pixels.getD (y * patch.width + x) 0 = 0 →
      0 ≤ oX + (x : ℤ) → oX + (x : ℤ) < texW →
      0 ≤ oY + (y : ℤ) → oY + (y : ℤ) < texH →
      ((oY + (y : ℤ)) * texW + (oX + (x : ℤ))) * 4 = (d : ℤ) → k < 4 →
      (compositePatch texData texW texH patch oX oY pal).getD (d + k) 0 =
        texData.getD (d + k) 0) ∧
    (∀ (fd : FlatData) (pal : List Color) (i : Nat),
      fd.data.length = 4096 → i < 4096 → byteAt fd.data i = 0 →
      0 < pal.length →
      ∃ t, createFlatTexture false fd pal = some t ∧
        t.getD (i * 4) 0 = (pal.getD 0 default).r ∧
        t.getD (i * 4 + 1) 0 = (pal.getD 0 default).g ∧
        t.getD (i * 4 + 2) 0 = (pal.getD 0 default).b ∧
        t.getD (i * 4 + 3) 0 = 255) :=
  ⟨fun texData texW texH patch oX oY pal x y d k hpix hx0 hx1 hy0 hy1 hd hk =>
      compositePatch_preserves texData texW texH patch oX oY pal x y d k hpix
        hx0 hx1 hy0 hy1 hd hk,
    fun fd pal i hlen hi h0 hpal =>
      createFlatTexture_writes_palette0 fd pal i hlen hi h0 hpal⟩

/-- C4, witness: a 1x1 patch holding palette index 0 composited at the
origin of a 2x2 texture leaves the background byte untouched, and a
uniformly-zero flat over the palette `[(9,8,7)]` gets `(9,8,7,255)` at
pixel 0. -/
theorem c4_zero_index_witness :
    (compositePatch (List.replicate 16 7) 2 2 ⟨"P", 1, 1, [0]⟩ 0 0
      [⟨1, 2, 3⟩]).getD (0 + 0) 0 = (List.replicate 16 7).getD (0 + 0) 0 ∧
    (∃ t, createFlatTexture false ⟨"F", List.replicate 4096 0⟩ [⟨9, 8, 7⟩] =
        some t ∧
      t.getD (0 * 4) 0 = (([⟨9, 8, 7⟩] : List Color).getD 0 default).r ∧
      t.getD (0 * 4 + 1) 0 = (([⟨9, 8, 7⟩] : List Color).getD 0 default).g ∧
      t.getD (0 * 4 + 2) 0 = (([⟨9, 8, 7⟩] : List Color).getD 0 default).b ∧
      t.getD (0 * 4 + 3) 0 = 255) :=
  ⟨c4_zero_index_transparency.1 (List.replicate 16 7) 2 2
      ⟨"P", 1, 1, [0]⟩ 0 0 [⟨1, 2, 3⟩] 0 0 0 0 (by decide) (by decide)
      (by decide) (by decide) (by decide) (by decide) (by decide),
    c4_zero_index_transparency.2 ⟨"F", List.replicate 4096 0⟩
      [⟨9, 8, 7⟩] 0 (List.length_replicate 4096 0) (by decide) (by rfl)
      (by decide)⟩

/-! ## Claim C10 -/

/-- Internal consistency of one geometry group: every index in the index
buffer addresses one of the group's vertices (5 floats per vertex). -/
def groupInv (g : GGroup) : Prop :=
  ∀ idx ∈ g.indices, idx < g.vertices.length / 5

theorem groupInv_empty : groupInv ⟨[], []⟩ := by
  intro idx h
  exact absurd h (List.not_mem_nil idx)

theorem groupInv_createWallSection (sq : ℚ → ℚ) (cX cY : ℚ) (v1 v2 : Vertex)
    (b t : ℚ) (sd : Sidedef) (g : GGroup) (hg : groupInv g) :
    groupInv (createWallSection sq cX cY v1 v2 b t sd g) := by
  simp only [createWallSection]
  split_ifs with h
  · exact hg
  · intro idx hidx
    simp only at hidx ⊢
    have hlen20 : ∀ (a1 a2 a3 a4 a5 a6 a7 a8 a9 a10 a11 a12 a13 a14 a15 a16
        a17 a18 a19 a20 : ℚ),
        (g.vertices ++ [a1, a2, a3, a4, a5, a6, a7, a8, a9, a10, a11, a12,
          a13, a14, a15, a16, a17, a18, a19, a20]).length =
          g.vertices.length + 20 := by
      intro a1 a2 a3 a4 a5 a6 a7 a8 a9 a10 a11 a12 a13 a14 a15 a16 a17 a18
        a19 a20
      simp
    rw [hlen20] at hidx ⊢
    have hdiv : (g.vertices.length + 20) / 5 = g.vertices.length / 5 + 4 := by
      rw [show (20 : Nat) = 5 * 4 from rfl]
      exact Nat.add_mul_div_left _ 4 (by norm_num)
    rcases List.mem_append.mp hidx with hold | hnew
    · have := hg idx hold
      omega
    · simp only [List.mem_cons, List.not_mem_nil, or_false] at hnew
      omega

theorem length_flatMap_five {α : Type} (l : List α) (f : α → List ℚ)
    (h : ∀ a, (f a).length = 5) : (l.flatMap f).length = 5 * l.length := by
  induction l with
  | nil => rfl
  | cons a rest ih =>
    rw [List.flatMap_cons, List.length_append, ih, h a, List.length_cons]
    ring

/-- Appending `sv.length` five-float vertices and any indices below
`baseIndex + sv.length` preserves the group invariant. -/
theorem groupInv_append_sector (g : GGroup) (hg : groupInv g)
    (f : Nat → List ℚ) (hf : ∀ a, (f a).length = 5) (sv : List Nat)
    (idxs : List Nat)
    (hidxs : ∀ idx ∈ idxs, idx < g.vertices.length / 5 + sv.length) :
    groupInv ⟨g.vertices ++ sv.flatMap f, g.indices ++ idxs⟩ := by
  intro idx hidx
  simp only at hidx ⊢
  rw [List.length_append, length_flatMap_five sv f hf]
  have hdiv : (g.vertices.length + 5 * sv.length) / 5 =
      g.vertices.length / 5 + sv.length :=
    Nat.add_mul_div_left _ sv.length (by norm_num)
  rcases List.mem_append.mp hidx with hold | hnew
  · have := hg idx hold
    omega
  · have := hidxs idx hnew
    omega

theorem groupInv_createSectorGeometry (cX cY : ℚ) (lv : List Vertex)
    (sector : Sector) (sv : List Nat) (isFloor : Bool) (g : GGroup)
    (hg : groupInv g) :
    groupInv (createSectorGeometry cX cY lv sector sv isFloor g) := by
  simp only [createSectorGeometry]
  by_cases h : sv.length < 3
  · rw [if_pos h]
    exact hg
  · rw [if_neg h]
    refine groupInv_append_sector g hg _ ?_ sv _ ?_
    · intro a
      rfl
    intro idx hidx
    obtain ⟨j, hj, hmem⟩ := List.mem_flatMap.mp hidx
    obtain ⟨c, hc, hcj⟩ := List.mem_range'.mp hj
    by_cases hf : isFloor = true
    · rw [if_pos hf] at hmem
      simp only [List.mem_cons, List.not_mem_nil, or_false] at hmem
      omega
    · rw [if_neg hf] at hmem
      simp only [List.mem_cons, List.not_mem_nil, or_false] at hmem
      omega

theorem groupInv_updateGroup (m : List (String × GGroup)) (name : String)
    (f : GGroup → GGroup) (hm : ∀ p ∈ m, groupInv p.2)
    (hf : ∀ g, groupInv g → groupInv (f g)) :
    ∀ p ∈ updateGroup m name f, groupInv p.2 := by
  induction m with
  | nil =>
    intro p hp
    simp only [updateGroup, List.mem_singleton] at hp
    subst hp
    exact hf _ groupInv_empty
  | cons kg rest ih =>
    intro p hp
    simp only [updateGroup] at hp
    split_ifs at hp with h1 h2
    · rcases List.mem_cons.mp hp with hp | hp
      · subst hp
        exact hf _ groupInv_empty
      · exact hm p hp
    · rcases List.mem_cons.mp hp with hp | hp
      · subst hp
        exact hf _ (hm kg (List.mem_cons_self kg rest))
      · exact hm p (List.mem_cons_of_mem kg hp)
    · rcases List.mem_cons.mp hp with hp | hp
      · subst hp
        exact hm kg (List.mem_cons_self kg rest)
      · exact ih (fun q hq => hm q (List.mem_cons_of_mem kg hq)) p hp

theorem groupInv_ite (c : Prop) [Decidable c] (a b : List (String × GGroup))
    (ha : ∀ p ∈ a, groupInv p.2) (hb : ∀ p ∈ b, groupInv p.2) :
    ∀ p ∈ (if c then a else b), groupInv p.2 := by
  split_ifs with h
  · exact ha
  · exact hb

theorem groupInv_ite_state (c : Prop) [Decidable c] (a b : GeoState)
    (ha : ∀ p ∈ a.2, groupInv p.2) (hb : ∀ p ∈ b.2, groupInv p.2) :
    ∀ p ∈ (if c then a else b).2, groupInv p.2 := by
  split_ifs with h
  · exact ha
  · exact hb

theorem groupInv_pair (x : List (List Nat)) (y : List (String × GGroup))
    (hy : ∀ p ∈ y, groupInv p.2) : ∀ p ∈ (x, y).2, groupInv p.2 := hy

theorem groupInv_upperWallGroups (sq : ℚ → ℚ) (cX cY : ℚ) (v1 v2 : Vertex)
    (rs : Sidedef) (s1 s2 : Sector) (groups : List (String × GGroup))
    (h : ∀ p ∈ groups, groupInv p.2) :
    ∀ p ∈ upperWallGroups sq cX cY v1 v2 rs s1 s2 groups, groupInv p.2 := by
  simp only [upperWallGroups]
  split_ifs
  · exact groupInv_updateGroup _ _ _ h
      (fun g hg => groupInv_createWallSection _ _ _ _ _ _ _ _ _ hg)
  · exact h
  · exact h

theorem groupInv_lowerWallGroups (sq : ℚ → ℚ) (cX cY : ℚ) (v1 v2 : Vertex)
    (rs : Sidedef) (s1 s2 : Sector) (groups : List (String × GGroup))
    (h : ∀ p ∈ groups, groupInv p.2) :
    ∀ p ∈ lowerWallGroups sq cX cY v1 v2 rs s1 s2 groups, groupInv p.2 := by
  simp only [lowerWallGroups]
  split_ifs
  · exact groupInv_updateGroup _ _ _ h
      (fun g hg => groupInv_createWallSection _ _ _ _ _ _ _ _ _ hg)
  · exact h
  · exact h

theorem groupInv_middleWallGroups (sq : ℚ → ℚ) (cX cY : ℚ) (v1 v2 : Vertex)
    (rs : Sidedef) (s1 s2 : Sector) (groups : List (String × GGroup))
    (h : ∀ p ∈ groups, groupInv p.2) :
    ∀ p ∈ middleWallGroups sq cX cY v1 v2 rs s1 s2 groups, groupInv p.2 := by
  simp only [middleWallGroups]
  split_ifs
  · exact groupInv_updateGroup _ _ _ h
      (fun g hg => groupInv_createWallSection _ _ _ _ _ _ _ _ _ hg)
  · exact h
  · exact h
  · exact h

theorem groupInv_oneSidedWallGroups (sq : ℚ → ℚ) (cX cY : ℚ) (v1 v2 : Vertex)
    (rs : Sidedef) (sec : Sector) (groups : List (String × GGroup))
    (h : ∀ p ∈ groups, groupInv p.2) :
    ∀ p ∈ oneSidedWallGroups sq cX cY v1 v2 rs sec groups, groupInv p.2 := by
  simp only [oneSidedWallGroups]
  split_ifs
  · exact groupInv_updateGroup _ _ _ h
      (fun g hg => groupInv_createWallSection _ _ _ _ _ _ _ _ _ hg)
  · exact h

theorem groupInv_linedefStep (sq : ℚ → ℚ) (cX cY : ℚ) (level : Level)
    (st : GeoState) (ld : Linedef) (h : ∀ p ∈ st.2, groupInv p.2) :
    ∀ p ∈ (linedefStep sq cX cY level st ld).2, groupInv p.2 := by
  simp only [linedefStep]
  exact groupInv_ite_state _ _ _ h
    (groupInv_ite_state _ _ _ h
      (groupInv_ite_state _ _ _ h
        (groupInv_ite_state _ _ _
          (groupInv_ite_state _ _ _ (groupInv_pair _ _ h)
            (groupInv_pair _ _
              (groupInv_middleWallGroups _ _ _ _ _ _ _ _ _
                (groupInv_lowerWallGroups _ _ _ _ _ _ _ _ _
                  (groupInv_upperWallGroups _ _ _ _ _ _ _ _ _ h)))))
          (groupInv_pair _ _
            (groupInv_oneSidedWallGroups _ _ _ _ _ _ _ _ h)))))

theorem groupInv_sectorStep (cX cY : ℚ) (level : Level)
    (sv : List (List Nat)) (groups : List (String × GGroup)) (i : Nat)
    (h : ∀ p ∈ groups, groupInv p.2) :
    ∀ p ∈ sectorStep cX cY level sv groups i, groupInv p.2 := by
  simp only [sectorStep]
  repeat
    first
    | exact h
    | refine groupInv_ite _ _ _ ?_ ?_
    | refine groupInv_updateGroup _ _ _ ?_
        (fun g hg => groupInv_createSectorGeometry _ _ _ _ _ _ _ hg)

theorem groupInv_createLevelGeometry (sq : ℚ → ℚ) (level : Level) :
    ∀ p ∈ createLevelGeometry sq level, groupInv p.2 := by
  intro p hp
  simp only [createLevelGeometry] at hp
  have hp2 := (List.mem_filter.mp hp).1
  refine foldl_inv
    (P := fun gs : List (String × GGroup) => ∀ q ∈ gs, groupInv q.2)
    (List.range level.sectors.length) _ ?_ ?_ p hp2
  · refine foldl_inv
      (P := fun st : GeoState => ∀ q ∈ st.2, groupInv q.2)
      level.linedefs _ ?_ ?_
    · intro q hq
      exact absurd hq (List.not_mem_nil q)
    · intro t a _ ht
      exact groupInv_linedefStep sq _ _ level t a ht
  · intro t a _ ht
    exact groupInv_sectorStep _ _ level _ t a ht

/-- C10: after `createLevelGeometry` completes, every geometry group is
internally consistent — every index in a group's index buffer (whether
pushed by wall-quad emission or by sector fan triangulation, including when
both accumulate into the same texture-named group) is strictly less than
the group's vertex count (vertex-buffer float length divided by 5). -/
theorem c10_group_indices_in_bounds (sq : ℚ → ℚ) (level : Level) :
    (createLevelGeometry sq level).all
      (fun p => p.2.indices.all
        (fun idx => decide (idx < p.2.vertices.length / 5))) = true := by
  rw [List.all_eq_true]
  intro p hp
  rw [List.all_eq_true]
  intro idx hidx
  rw [decide_eq_true_eq]
  exact groupInv_createLevelGeometry sq level p hp idx hidx

end WadViewer
